import Mathlib

/-!
Shallow embedding of the field-comparison engine of `analyser.py`
(class `ErrorAnalyzer`), together with proofs of its spec-level
properties.

Modelling conventions:
* A pandas DataFrame is a list of named columns in native order, each
  column an ordered list of Python scalar values.
* Python scalars relevant to the classifier are `int`, `float`, `bool`
  and `str`; reals are embedded as rationals (the engine only ever
  performs exact field arithmetic on the values we reason about).
* The scipy statistical tests (`ttest_ind`, `mannwhitneyu`,
  `chi2_contingency`) are external library calls, so the injected
  numerical strategy and the chi-squared categorical test are modelled
  as uninterpreted p-value functions carried by the analyzer.
* Python dicts keep insertion order; `_calculate_probabilities` is
  embedded as an association list built in the same insertion order
  (faithful whenever the column names of each DataFrame are distinct,
  which the exactness theorems assume).
* A Python statement `a, b, c = t` that unpacks a 4-tuple raises
  `ValueError`; fallible computations are embedded in `Option`, with
  `none` standing for a raised exception.
-/

/-- A Python scalar value as seen by the classifier of `analyser.py`. -/
inductive PyVal where
  | int : Int → PyVal
  | float : ℚ → PyVal
  | bool : Bool → PyVal
  | str : String → PyVal
deriving DecidableEq, Repr

/-- Embedding of `isinstance(x, (int, float))` from
`_calculate_probabilities` (line 111).  In Python, `bool` is a subclass
of `int`, so a boolean passes this check. -/
def isNumberCheck : PyVal → Bool
  | .int _ => true
  | .float _ => true
  | .bool _ => true
  | .str _ => false

/-- Embedding of `isinstance(x, str)` from `_calculate_probabilities`
(line 114). -/
def isStringCheck : PyVal → Bool
  | .str _ => true
  | _ => false

/-- `true` exactly on embedded Python booleans. -/
def isBoolVal : PyVal → Bool
  | .bool _ => true
  | _ => false

/-- A pandas DataFrame: named columns in native order. -/
structure DataFrame where
  cols : List (String × List PyVal)
deriving DecidableEq, Repr

/-- `df.columns`: the column names in native order. -/
def DataFrame.columns (df : DataFrame) : List String :=
  df.cols.map Prod.fst

/-- Embedding of column access `df[field]`: `some` of the column when the
name exists, `none` for a `KeyError`. -/
def DataFrame.get (df : DataFrame) (field : String) : Option (List PyVal) :=
  (df.cols.find? (fun c => c.1 == field)).map Prod.snd

/-- One value of the dict built by `_calculate_probabilities`.  The
source mixes two tuple shapes per case (see its return annotation
`tuple[str, float, bool, str] | tuple[float, bool, None]`):
a 4-tuple for the schema-drift sentinels and a 3-tuple
`(p_value, False, None)` for a tested shared field. -/
inductive ProbEntry where
  | drift (msg : String) (p : ℚ) (flag : Bool) (details : String)
  | tested (p : ℚ) (flag : Bool)
deriving DecidableEq, Repr

/-- Python unpacking `p_value, is_additional, details = entry` (used in
`run`, line 76, and in `calculate_effect_size`, line 32 with the third
component discarded).  A 3-tuple `(p, False, None)` unpacks to
`(p, flag, none)`; a 4-tuple raises
`ValueError: too many values to unpack (expected 3)`, embedded as
`none`. -/
def ProbEntry.unpack3 : ProbEntry → Option (ℚ × Bool × Option String)
  | .tested p flag => some (p, flag, none)
  | .drift _ _ _ _ => none

/-- One row of the Result Table produced by `run`. -/
structure ResultRow where
  field : String
  probability : ℚ
  extra_status : Bool
  details : Option String
deriving DecidableEq, Repr

/-- `ErrorAnalyzer.MAX_PROBABILITY = 0.99999` (line 10). -/
def MAX_PROBABILITY : ℚ := 99999 / 100000

/-- `ErrorAnalyzer.MISSING_BAD_DATA` (line 11): the 4-tuple
`("Missing in bad_data", MAX_PROBABILITY, True, "Missing in bad_data")`. -/
def MISSING_BAD_DATA : ProbEntry :=
  .drift "Missing in bad_data" MAX_PROBABILITY true "Missing in bad_data"

/-- `ErrorAnalyzer.ADDITIONAL_BAD_DATA` (line 12): the 4-tuple
`("Additional in bad_data", MAX_PROBABILITY, True, "Additional in bad_data")`. -/
def ADDITIONAL_BAD_DATA : ProbEntry :=
  .drift "Additional in bad_data" MAX_PROBABILITY true "Additional in bad_data"

/-- The `ErrorAnalyzer` after `__init__`: good (reference) data, bad
(candidate) data, the ignore-list (`[]` when `None` was passed) and the
injected statistical tests.  `numerical_strategy` embeds the injected
`NumericalStrategy.calculate_probability` and `categorical_probability`
embeds the static `_calculate_categorical_probability`; both bottom out
in scipy, so they are uninterpreted p-value functions here. -/
structure ErrorAnalyzer where
  good_data : DataFrame
  bad_data : DataFrame
  fields_to_ignore : List String
  numerical_strategy : List PyVal → List PyVal → ℚ
  categorical_probability : List PyVal → List PyVal → ℚ

namespace ErrorAnalyzer

/-- Body of the reference-column loop of `_calculate_probabilities`
(lines 104–116) for one non-ignored reference field: the drift sentinel
when the field is absent from `bad_data`, the tested 3-tuple when the
column is all-numeric (first) or all-string (second), nothing otherwise. -/
def goodFieldEntry (a : ErrorAnalyzer) (field : String) (vals : List PyVal) :
    Option ProbEntry :=
  match a.bad_data.get field with
  | none => some MISSING_BAD_DATA
  | some badVals =>
    if vals.all isNumberCheck then
      some (.tested (a.numerical_strategy vals badVals) false)
    else if vals.all isStringCheck then
      some (.tested (a.categorical_probability vals badVals) false)
    else none

/-- Embedding of `_calculate_probabilities` (lines 90–123): the dict of
per-field entries in insertion order — the reference columns in native
order (ignored fields skipped), then the candidate-only columns in
native order (ignored fields skipped). -/
def calculate_probabilities (a : ErrorAnalyzer) : List (String × ProbEntry) :=
  (a.good_data.cols.filterMap (fun c =>
    if c.1 ∈ a.fields_to_ignore then none
    else (a.goodFieldEntry c.1 c.2).map (fun e => (c.1, e))))
  ++ (a.bad_data.cols.filterMap (fun c =>
    if c.1 ∈ a.good_data.columns then none
    else if c.1 ∈ a.fields_to_ignore then none
    else some (c.1, ADDITIONAL_BAD_DATA)))

/-- Embedding of `_calculate_probability` (lines 141–150).  The source
method takes `self` but reads only class constants. -/
def calculate_probability (p_value : ℚ) (is_additional : Bool) : ℚ :=
  let alpha : ℚ := 1 / 20  -- 0.05
  let probability :=
    if is_additional then MAX_PROBABILITY
    else if p_value < alpha then 1 - p_value else 0
  probability * 100

/-- The row `run` (lines 79–84) builds for one dict entry, `none` when
the entry is ignored (the dead re-check at line 78) or its 3-tuple
unpacking fails. -/
def rowOf (ig : List String) (fe : String × ProbEntry) : Option ResultRow :=
  match fe.2.unpack3 with
  | none => none
  | some (p, is_additional, details) =>
    if fe.1 ∈ ig then none
    else some ⟨fe.1, calculate_probability p is_additional, is_additional, details⟩

/-- The loop of `run` (lines 76–85) over the dict entries: each
iteration unpacks the entry as a 3-tuple — raising `ValueError` on the
4-tuple drift sentinels, which aborts the whole call — and appends a row
for each non-ignored field. -/
def runLoop (ig : List String) : List (String × ProbEntry) → Option (List ResultRow)
  | [] => some []
  | fe :: rest =>
    match fe.2.unpack3 with
    | none => none
    | some (p, is_additional, details) =>
      (runLoop ig rest).map (fun rs =>
        if fe.1 ∈ ig then rs
        else ⟨fe.1, calculate_probability p is_additional, is_additional, details⟩ :: rs)

/-- Embedding of `run` (lines 66–88): builds the probability dict and
assembles the Result Table; `none` when the loop raises on a drift
entry. -/
def run (a : ErrorAnalyzer) : Option (List ResultRow) :=
  runLoop a.fields_to_ignore a.calculate_probabilities

/-- `_apply_bonferroni_correction` (lines 61–64): multiply each p-value
by the count of tests, then cap each at 1.0. -/
def apply_bonferroni_correction (p_values : List ℚ) : List ℚ :=
  ((p_values.map (fun p => p * (p_values.length : ℚ))).map (fun p => min p 1))

/-- `adjust_p_values` (lines 53–59): Bonferroni is the only supported
method; any other method raises `ValueError` before any result is
produced. -/
def adjust_p_values (p_values : List ℚ) (adjustment_method : String) :
    Except String (List ℚ) :=
  if adjustment_method = "bonferroni" then
    .ok (apply_bonferroni_correction p_values)
  else
    .error ("Adjustment method '" ++ adjustment_method ++ "' is not supported.")

/-- Sample mean of a pandas numeric Series (`.mean()`). -/
def seriesMean (xs : List ℚ) : ℚ := xs.sum / xs.length

/-- Square of the sample standard deviation `.std()` (pandas default
`ddof = 1`).  `_calculate_effect_size` only ever uses the standard
deviations squared (`good_values_std ** 2`), and `(sqrt v)^2 = v` for
the nonnegative sample variance, so the squared value is embedded
directly as the exact rational sample variance. -/
def seriesVarSample (xs : List ℚ) : ℚ :=
  (xs.map (fun x => (x - seriesMean xs) ^ 2)).sum / ((xs.length : ℚ) - 1)

/-- The number pandas aggregates a scalar as: `True`/`False` count as
1/0; a string has none (`TypeError`). -/
def pyNum : PyVal → Option ℚ
  | .int n => some (n : ℚ)
  | .float q => some q
  | .bool b => some (if b then 1 else 0)
  | .str _ => none

/-- Conversion of a column to the numbers pandas aggregates over,
`none` when any value is non-numeric. -/
def seriesToRat : List PyVal → Option (List ℚ)
  | [] => some []
  | v :: rest =>
    match pyNum v with
    | none => none
    | some q => (seriesToRat rest).map (fun qs => q :: qs)

/-- Embedding of `_calculate_effect_size` (lines 36–51).  Note the
source computes `pooled_std` WITHOUT a square root — it is the pooled
sample variance — and divides the absolute mean difference by it.  The
`p_value` parameter is accepted and ignored, as in the source. -/
def calculate_effect_size_inner (a : ErrorAnalyzer) (_p_value : ℚ)
    (field : String) : Option ℚ := do
  let goodVals ← a.good_data.get field
  let badVals ← a.bad_data.get field
  let good_values ← seriesToRat goodVals
  let bad_values ← seriesToRat badVals
  let good_values_mean := seriesMean good_values
  let bad_values_mean := seriesMean bad_values
  let good_values_var := seriesVarSample good_values  -- good_values.std() ** 2
  let bad_values_var := seriesVarSample bad_values    -- bad_values.std() ** 2
  let pooled_std :=
    (((good_values.length : ℚ) - 1) * good_values_var +
     ((bad_values.length : ℚ) - 1) * bad_values_var) /
    ((good_values.length : ℚ) + (bad_values.length : ℚ) - 2)
  let cohen_d := |good_values_mean - bad_values_mean| / pooled_std
  pure cohen_d

/-- Embedding of `calculate_effect_size` (lines 24–34): `0.0` for an
ignored or unanalyzed field, otherwise the field's dict entry is
unpacked as a 3-tuple (raising on the 4-tuple drift sentinels) and the
effect size computed. -/
def calculate_effect_size (a : ErrorAnalyzer) (field : String) : Option ℚ :=
  if field ∈ a.fields_to_ignore then
    some 0  -- Effect size not calculated for ignored fields
  else
    match (a.calculate_probabilities.find? (fun fe => fe.1 == field)) with
    | none => some 0  -- Effect size not calculated if field is not analyzed
    | some fe =>
      match fe.2.unpack3 with
      | none => none  -- ValueError: too many values to unpack (expected 3)
      | some (p_value, _, _) => a.calculate_effect_size_inner p_value field

end ErrorAnalyzer

/-! ### Helper lemmas about the embedding -/

namespace ErrorAnalyzer

/-- Entries of the probability dict carrying a given key, in order. -/
def entriesFor (a : ErrorAnalyzer) (f : String) : List (String × ProbEntry) :=
  a.calculate_probabilities.filterMap
    (fun fe => if fe.1 = f then some fe else none)

end ErrorAnalyzer

theorem DataFrame.get_eq_none_iff (df : DataFrame) (f : String) :
    df.get f = none ↔ f ∉ df.columns := by
  unfold DataFrame.get DataFrame.columns
  rw [Option.map_eq_none', List.find?_eq_none]
  constructor
  · intro h hmem
    rcases List.mem_map.mp hmem with ⟨c, hc, hfst⟩
    exact h c hc (by simp [hfst])
  · intro h c hc hbeq
    exact h (List.mem_map.mpr ⟨c, hc, by simpa using hbeq⟩)

theorem DataFrame.mem_columns_of_get_eq_some (df : DataFrame) (f : String)
    (v : List PyVal) (h : df.get f = some v) : f ∈ df.columns := by
  unfold DataFrame.get at h
  rcases Option.map_eq_some'.mp h with ⟨c, hfind, _⟩
  have hc := List.mem_of_find?_eq_some hfind
  have hp := List.find?_some hfind
  exact List.mem_map.mpr ⟨c, hc, by simpa using hp⟩

/-- A `filterMap` keyed to a name absent from the association list is empty. -/
theorem keyFilterMap_of_not_mem {β γ : Type} (q : String × β → Option γ)
    (f : String) :
    ∀ (cols : List (String × β)), f ∉ cols.map Prod.fst →
      cols.filterMap (fun c => if c.1 = f then q c else none) = []
  | [], _ => rfl
  | c :: rest, h => by
    have hne : c.1 ≠ f := by
      intro he; exact h (by simp [he])
    have hrest : f ∉ rest.map Prod.fst := by
      intro hm; exact h (by simp [hm])
    rw [List.filterMap_cons_none (by simp [hne]),
      keyFilterMap_of_not_mem q f rest hrest]

/-- On an association list with distinct keys, a keyed `filterMap`
reduces to the value at the unique matching entry. -/
theorem keyFilterMap_of_nodup {β γ : Type} (q : String × β → Option γ)
    (f : String) (v : β) :
    ∀ (cols : List (String × β)), (cols.map Prod.fst).Nodup →
      (f, v) ∈ cols →
      cols.filterMap (fun c => if c.1 = f then q c else none) = (q (f, v)).toList
  | [], _, hmem => absurd hmem (List.not_mem_nil _)
  | c :: rest, hnd, hmem => by
    rw [List.map_cons, List.nodup_cons] at hnd
    rcases List.mem_cons.mp hmem with he | hrest
    · subst he
      have hnone : f ∉ rest.map Prod.fst := by simpa using hnd.1
      rw [List.filterMap_cons, keyFilterMap_of_not_mem q f rest hnone]
      simp only [if_pos rfl]
      cases q (f, v) <;> rfl
    · have hne : c.1 ≠ f := by
        intro he
        exact hnd.1 (he ▸ List.mem_map.mpr ⟨(f, v), hrest, rfl⟩)
      rw [List.filterMap_cons_none (by simp [hne])]
      exact keyFilterMap_of_nodup q f v rest hnd.2 hrest

namespace ErrorAnalyzer

/-- The reference-loop body always pairs its entry with its own field name. -/
theorem goodPair_key (a : ErrorAnalyzer) (c : String × List PyVal)
    (pr : String × ProbEntry)
    (h : (if c.1 ∈ a.fields_to_ignore then none
          else (a.goodFieldEntry c.1 c.2).map (fun e => (c.1, e))) = some pr) :
    pr.1 = c.1 := by
  by_cases hig : c.1 ∈ a.fields_to_ignore
  · simp [hig] at h
  · simp only [hig, if_false, Option.map_eq_some'] at h
    rcases h with ⟨e, _, he⟩
    simp [← he]

/-- On reference data with distinct column names, the dict entries keyed
by a non-ignored reference field are exactly the one the reference loop
produces for that column. -/
theorem entriesFor_eq (a : ErrorAnalyzer) (f : String) (vals : List PyVal)
    (hnd : a.good_data.columns.Nodup)
    (hmem : (f, vals) ∈ a.good_data.cols)
    (hig : f ∉ a.fields_to_ignore) :
    a.entriesFor f = ((a.goodFieldEntry f vals).map (fun e => (f, e))).toList := by
  have hfcol : f ∈ a.good_data.columns :=
    List.mem_map.mpr ⟨(f, vals), hmem, rfl⟩
  unfold entriesFor calculate_probabilities
  rw [List.filterMap_append, List.filterMap_filterMap, List.filterMap_filterMap]
  have hbad : (a.bad_data.cols.filterMap (fun c =>
      (if c.1 ∈ a.good_data.columns then none
       else if c.1 ∈ a.fields_to_ignore then none
       else some (c.1, ADDITIONAL_BAD_DATA)).bind
        (fun fe => if fe.1 = f then some fe else none))) = [] := by
    rw [List.filterMap_eq_nil_iff]
    intro c _
    by_cases h1 : c.1 ∈ a.good_data.columns
    · simp [h1]
    · by_cases h2 : c.1 ∈ a.fields_to_ignore
      · simp [h1, h2]
      · have : c.1 ≠ f := fun he => h1 (he ▸ hfcol)
        simp [h1, h2, this]
  rw [hbad, List.append_nil]
  have hpt : ∀ c ∈ a.good_data.cols,
      ((if c.1 ∈ a.fields_to_ignore then none
        else (a.goodFieldEntry c.1 c.2).map (fun e => (c.1, e))).bind
         (fun fe => if fe.1 = f then some fe else none)) =
      (if c.1 = f then
        (if c.1 ∈ a.fields_to_ignore then none
         else (a.goodFieldEntry c.1 c.2).map (fun e => (c.1, e)))
       else none) := by
    intro c _
    rcases hA : (if c.1 ∈ a.fields_to_ignore then none
        else (a.goodFieldEntry c.1 c.2).map (fun e => (c.1, e))) with _ | pr
    · simp
    · have hk := a.goodPair_key c pr hA
      by_cases he : c.1 = f
      · simp [he, hk.trans he]
      · have : pr.1 ≠ f := by rw [hk]; exact he
        simp [he, this]
  rw [List.filterMap_congr hpt,
    keyFilterMap_of_nodup _ f vals a.good_data.cols hnd hmem]
  simp [hig]

/-- `find?` on an association list is the head of its keyed entries. -/
theorem find?_eq_head_entriesFor (a : ErrorAnalyzer) (f : String) :
    a.calculate_probabilities.find? (fun fe => fe.1 == f) =
      (a.entriesFor f).head? := by
  unfold entriesFor
  generalize a.calculate_probabilities = l
  induction l with
  | nil => rfl
  | cons fe rest ih =>
    by_cases he : fe.1 = f
    · rw [List.find?_cons_of_pos _ (by simp [he])]
      simp [List.filterMap_cons, he]
    · rw [List.find?_cons_of_neg _ (by simp [he]),
        List.filterMap_cons_none (by simp [he]), ih]

/-- A successful 3-tuple unpacking means the entry was a 3-tuple. -/
theorem ProbEntry.unpack3_some {e : ProbEntry} {t : ℚ × Bool × Option String}
    (h : e.unpack3 = some t) : ∃ p flag, e = ProbEntry.tested p flag := by
  cases e with
  | drift m p fl d => exact absurd h (by simp [ProbEntry.unpack3])
  | tested p fl => exact ⟨p, fl, rfl⟩

/-- A successful `run` loop returns exactly the rows of its entries, and
can only have succeeded if every entry was a 3-tuple. -/
theorem runLoop_eq_some (ig : List String) :
    ∀ (l : List (String × ProbEntry)) (t : List ResultRow),
      runLoop ig l = some t →
      t = l.filterMap (rowOf ig) ∧
        ∀ fe ∈ l, ∃ p flag, fe.2 = ProbEntry.tested p flag
  | [], t, h => by
    refine ⟨by simpa [runLoop] using h.symm, by simp⟩
  | fe :: rest, t, h => by
    rcases hu : fe.2.unpack3 with _ | trip
    · rw [runLoop, hu] at h; exact absurd h (by simp)
    · rw [runLoop, hu] at h
      rcases Option.map_eq_some'.mp h with ⟨rs, hrs, ht⟩
      obtain ⟨hrest, htail⟩ := runLoop_eq_some ig rest rs hrs
      constructor
      · rw [List.filterMap_cons, rowOf, hu]
        rcases trip with ⟨p, flag, d⟩
        by_cases hig : fe.1 ∈ ig
        · simp only [hig, if_true] at ht ⊢
          rw [← ht, hrest]
        · simp only [hig, if_false] at ht ⊢
          rw [← ht, hrest]
      · intro ge hge
        rcases List.mem_cons.mp hge with he | hr
        · subst he
          rcases ProbEntry.unpack3_some hu with ⟨p, flag, hfe⟩
          exact ⟨p, flag, hfe⟩
        · exact htail ge hr

end ErrorAnalyzer


/-! ### Score-conversion bounds (shared helper) -/

namespace ErrorAnalyzer

/-- For a non-drift field with a p-value in `[0, 1]`, the converted score
lies in `[0, 100]`. -/
theorem calculate_probability_nondrift_bounds (p : ℚ) (hp0 : 0 ≤ p)
    (hp1 : p ≤ 1) :
    0 ≤ calculate_probability p false ∧ calculate_probability p false ≤ 100 := by
  unfold calculate_probability
  by_cases h : p < 1 / 20
  · simp only [Bool.false_eq_true, if_false, if_pos h]
    constructor <;> nlinarith
  · simp only [Bool.false_eq_true, if_false, if_neg h]
    norm_num

end ErrorAnalyzer

/-! ### Concrete analyzers used to evaluate the engine -/

/-- Analyzer with one shared numeric field, one reference-only field and
one candidate-only field (the strategies are irrelevant constants). -/
def anaSchemaDrift : ErrorAnalyzer :=
  { good_data := ⟨[("size", [.int 1, .int 2]), ("extra_good", [.int 3])]⟩
    bad_data := ⟨[("size", [.int 4]), ("extra_bad", [.int 5])]⟩
    fields_to_ignore := []
    numerical_strategy := fun _ _ => 1 / 2
    categorical_probability := fun _ _ => 1 / 2 }

/-- The reference column of the spec's effect-size example. -/
def refSizes : List ℚ := [20, 22, 21, 23, 18]

/-- The candidate column of the spec's effect-size example. -/
def candSizes : List ℚ := [35, 32, 40, 30, 38]

/-- Analyzer holding the spec's effect-size example data. -/
def anaEffect : ErrorAnalyzer :=
  { good_data := ⟨[("size", [.int 20, .int 22, .int 21, .int 23, .int 18])]⟩
    bad_data := ⟨[("size", [.int 35, .int 32, .int 40, .int 30, .int 38])]⟩
    fields_to_ignore := []
    numerical_strategy := fun _ _ => 1 / 2
    categorical_probability := fun _ _ => 1 / 2 }

/-- Analyzer whose reference and candidate columns are identical. -/
def anaEffectIdentical : ErrorAnalyzer :=
  { good_data := ⟨[("size", [.int 20, .int 22, .int 21, .int 23, .int 18])]⟩
    bad_data := ⟨[("size", [.int 20, .int 22, .int 21, .int 23, .int 18])]⟩
    fields_to_ignore := []
    numerical_strategy := fun _ _ => 1 / 2
    categorical_probability := fun _ _ => 1 / 2 }

/-! ### The claims -/

/-- C1: the probability dict does hold the two maximum-probability drift
sentinels for the reference-only and candidate-only fields, but `run`
unpacks every dict value as a 3-tuple, so on the 4-tuple sentinels it
raises `ValueError: too many values to unpack` (embedded as `none`)
instead of returning a Result Table with `extra_status = true` rows of
probability `99.999`. -/
theorem drift_rows_crash_run :
    anaSchemaDrift.calculate_probabilities =
      [("size", ProbEntry.tested (1 / 2) false),
       ("extra_good", MISSING_BAD_DATA),
       ("extra_bad", ADDITIONAL_BAD_DATA)] ∧
    ErrorAnalyzer.calculate_probability (1 / 2) true = 99999 / 1000 ∧
    anaSchemaDrift.run = none := by
  refine ⟨?_, ?_, ?_⟩
  · simp +decide [anaSchemaDrift, ErrorAnalyzer.calculate_probabilities,
      ErrorAnalyzer.goodFieldEntry, DataFrame.get, DataFrame.columns,
      isNumberCheck, List.find?, List.filterMap_cons]
  · norm_num [ErrorAnalyzer.calculate_probability, MAX_PROBABILITY]
  · simp +decide [anaSchemaDrift, ErrorAnalyzer.run, ErrorAnalyzer.runLoop,
      ErrorAnalyzer.calculate_probabilities, ErrorAnalyzer.goodFieldEntry,
      DataFrame.get, DataFrame.columns, isNumberCheck, List.find?,
      ProbEntry.unpack3, MISSING_BAD_DATA, List.filterMap_cons]

/-- C2: for a non-drift field, the score is `(1 − p) × 100` below the
`α = 0.05` threshold and `0` at or above it, and the score is strictly
antitone in the p-value below the threshold. -/
theorem score_conversion_and_monotonicity (p pa pb : ℚ) (hp0 : 0 ≤ p)
    (hp1 : p ≤ 1) (hab : pa < pb) (hb : pb < 1 / 20) :
    (p < 1 / 20 → ErrorAnalyzer.calculate_probability p false = (1 - p) * 100) ∧
    (1 / 20 ≤ p → ErrorAnalyzer.calculate_probability p false = 0) ∧
    ErrorAnalyzer.calculate_probability pa false >
      ErrorAnalyzer.calculate_probability pb false := by
  have ha : pa < 1 / 20 := hab.trans hb
  refine ⟨fun h => ?_, fun h => ?_, ?_⟩
  · simp only [ErrorAnalyzer.calculate_probability, Bool.false_eq_true, if_false,
      if_pos h]
  · simp only [ErrorAnalyzer.calculate_probability, Bool.false_eq_true, if_false,
      if_neg (not_lt.mpr h)]
    norm_num
  · simp only [ErrorAnalyzer.calculate_probability, Bool.false_eq_true, if_false,
      if_pos ha, if_pos hb]
    nlinarith

/-- Witness for C2 at `p = 1/2`, `pa = 0.01`, `pb = 0.02`. -/
theorem score_conversion_and_monotonicity_witness :
    ((1 / 2 : ℚ) < 1 / 20 →
      ErrorAnalyzer.calculate_probability (1 / 2) false = (1 - 1 / 2) * 100) ∧
    ((1 / 20 : ℚ) ≤ 1 / 2 →
      ErrorAnalyzer.calculate_probability (1 / 2) false = 0) ∧
    ErrorAnalyzer.calculate_probability (1 / 100) false >
      ErrorAnalyzer.calculate_probability (2 / 100) false :=
  score_conversion_and_monotonicity (1 / 2) (1 / 100) (2 / 100)
    (by norm_num) (by norm_num) (by norm_num) (by norm_num)

/-- C3: on the spec's example data the engine returns `284/207 ≈ 1.372`:
the absolute mean difference `71/5` divided by the POOLED SAMPLE
VARIANCE `207/20`, not by its square root — the middle conjunct shows
the returned value squared times the pooled variance misses the squared
mean difference, which would hold of any true pooled-std Cohen's d.  On
identical samples it returns `0`. -/
theorem effect_size_divides_by_pooled_variance :
    anaEffect.calculate_effect_size "size" = some (284 / 207) ∧
    ¬ ((284 / 207 : ℚ) ^ 2 *
        ((((refSizes.length : ℚ) - 1) * ErrorAnalyzer.seriesVarSample refSizes +
          ((candSizes.length : ℚ) - 1) * ErrorAnalyzer.seriesVarSample candSizes) /
         ((refSizes.length : ℚ) + (candSizes.length : ℚ) - 2)) =
        (ErrorAnalyzer.seriesMean refSizes - ErrorAnalyzer.seriesMean candSizes) ^ 2) ∧
    anaEffectIdentical.calculate_effect_size "size" = some 0 := by
  refine ⟨?_, ?_, ?_⟩
  · simp +decide [anaEffect, ErrorAnalyzer.calculate_effect_size,
      ErrorAnalyzer.calculate_probabilities, ErrorAnalyzer.goodFieldEntry,
      ErrorAnalyzer.calculate_effect_size_inner, ErrorAnalyzer.seriesToRat,
      ErrorAnalyzer.pyNum, ErrorAnalyzer.seriesMean, ErrorAnalyzer.seriesVarSample,
      DataFrame.get, DataFrame.columns, isNumberCheck, List.find?,
      ProbEntry.unpack3, List.filterMap_cons]
    norm_num [abs_of_nonneg]
  · norm_num [refSizes, candSizes, ErrorAnalyzer.seriesVarSample,
      ErrorAnalyzer.seriesMean]
  · simp +decide [anaEffectIdentical, ErrorAnalyzer.calculate_effect_size,
      ErrorAnalyzer.calculate_probabilities, ErrorAnalyzer.goodFieldEntry,
      ErrorAnalyzer.calculate_effect_size_inner, ErrorAnalyzer.seriesToRat,
      ErrorAnalyzer.pyNum, ErrorAnalyzer.seriesMean, ErrorAnalyzer.seriesVarSample,
      DataFrame.get, DataFrame.columns, isNumberCheck, List.find?,
      ProbEntry.unpack3, List.filterMap_cons]

/-- C6: Bonferroni adjustment multiplies each p-value by the number of
tests, caps at 1, preserves the length, and on `[0.01, 0.02, 0.5]`
yields `[0.03, 0.06, 1.0]`. -/
theorem bonferroni_adjustment_correct (ps : List ℚ) :
    ErrorAnalyzer.adjust_p_values ps "bonferroni" =
      .ok (ps.map (fun p => min (p * (ps.length : ℚ)) 1)) ∧
    (ps.map (fun p => min (p * (ps.length : ℚ)) 1)).length = ps.length ∧
    ErrorAnalyzer.adjust_p_values [1 / 100, 2 / 100, 5 / 10] "bonferroni" =
      .ok [3 / 100, 6 / 100, 1] := by
  refine ⟨?_, by simp, ?_⟩
  · simp only [ErrorAnalyzer.adjust_p_values, if_pos rfl,
      ErrorAnalyzer.apply_bonferroni_correction, List.map_map]
    rfl
  · simp only [ErrorAnalyzer.adjust_p_values, if_pos rfl,
      ErrorAnalyzer.apply_bonferroni_correction]
    norm_num

/-- C7: any adjustment method other than `"bonferroni"` raises the
unsupported-method `ValueError`, with no partial result: the embedded
call returns only the error value. -/
theorem unsupported_adjustment_method_errors (ps : List ℚ) (method : String)
    (h : method ≠ "bonferroni") :
    ErrorAnalyzer.adjust_p_values ps method =
      .error ("Adjustment method '" ++ method ++ "' is not supported.") := by
  simp [ErrorAnalyzer.adjust_p_values, h]

/-- Witness for C7 at method `"holm"`. -/
theorem unsupported_adjustment_method_errors_witness :
    ErrorAnalyzer.adjust_p_values [1 / 100, 2 / 100] "holm" =
      .error ("Adjustment method 'holm' is not supported.") :=
  unsupported_adjustment_method_errors [1 / 100, 2 / 100] "holm" (by decide)

/-- Inversion for `rowOf`: a produced row belongs to a non-ignored field
and carries that field's name. -/
theorem rowOf_some_inv (ig : List String) (fe : String × ProbEntry)
    (r : ResultRow) (h : ErrorAnalyzer.rowOf ig fe = some r) :
    fe.1 ∉ ig ∧ r.field = fe.1 := by
  unfold ErrorAnalyzer.rowOf at h
  rcases hu : fe.2.unpack3 with _ | ⟨p, flag, d⟩
  · rw [hu] at h; exact absurd h (by simp)
  · rw [hu] at h
    dsimp only at h
    by_cases hig : fe.1 ∈ ig
    · rw [if_pos hig] at h; exact absurd h (by simp)
    · rw [if_neg hig] at h
      obtain rfl := Option.some.inj h
      exact ⟨hig, rfl⟩

/-- C5: a field on the ignore-list never contributes a row to a returned
Result Table, whatever its membership in the two datasets. -/
theorem ignored_fields_absent_from_result (a : ErrorAnalyzer)
    (t : List ResultRow) (f : String) (hig : f ∈ a.fields_to_ignore)
    (hrun : a.run = some t) :
    t.filter (fun r => r.field == f) = [] := by
  obtain ⟨ht, -⟩ :=
    ErrorAnalyzer.runLoop_eq_some a.fields_to_ignore a.calculate_probabilities t hrun
  rw [ht, List.filter_eq_nil_iff]
  intro r hr
  rcases List.mem_filterMap.mp hr with ⟨fe, -, hrow⟩
  obtain ⟨hnig, hfield⟩ := rowOf_some_inv a.fields_to_ignore fe r hrow
  simp only [beq_iff_eq, hfield]
  intro he
  exact hnig (he ▸ hig)

/-- Analyzer for the C5 witness: the ignored field `"color"` is shared,
`"heft"` is ignored and reference-only, `"tint"` is ignored and
candidate-only. -/
def anaIgnored : ErrorAnalyzer :=
  { good_data := ⟨[("size", [.int 1]), ("color", [.str "g"]), ("heft", [.int 2])]⟩
    bad_data := ⟨[("size", [.int 3]), ("color", [.str "r"]), ("tint", [.str "b"])]⟩
    fields_to_ignore := ["color", "heft", "tint"]
    numerical_strategy := fun _ _ => 1 / 2
    categorical_probability := fun _ _ => 1 / 2 }

/-- Witness for C5: on `anaIgnored`, `run` returns a table and the
ignored shared field `"color"` has no row in it. -/
theorem ignored_fields_absent_from_result_witness :
    (List.filter (fun r => r.field == "color")
      [({ field := "size", probability := 0, extra_status := false,
          details := none } : ResultRow)]) = [] :=
  ignored_fields_absent_from_result anaIgnored
    [{ field := "size", probability := 0, extra_status := false, details := none }]
    "color" (by decide)
    (by simp +decide [anaIgnored, ErrorAnalyzer.run, ErrorAnalyzer.runLoop,
      ErrorAnalyzer.calculate_probabilities, ErrorAnalyzer.goodFieldEntry,
      DataFrame.get, DataFrame.columns, isNumberCheck, List.find?,
      ProbEntry.unpack3, List.filterMap_cons, ErrorAnalyzer.calculate_probability,
      MAX_PROBABILITY] <;> norm_num)

/-- C9: a shared, non-ignored field whose reference column holds only
Python booleans passes the `isinstance(x, (int, float))` check (bool is
a subclass of int), so its unique dict entry is the one dispatched to
the injected NUMERICAL strategy — the field is treated as Numeric, not
Categorical or Unclassifiable. -/
theorem bool_column_classified_numeric (a : ErrorAnalyzer) (f : String)
    (vals badVals : List PyVal)
    (hnd : a.good_data.columns.Nodup)
    (hmem : (f, vals) ∈ a.good_data.cols)
    (hshared : a.bad_data.get f = some badVals)
    (hig : f ∉ a.fields_to_ignore)
    (hbool : vals.all isBoolVal) :
    vals.all isNumberCheck = true ∧
    a.entriesFor f =
      [(f, ProbEntry.tested (a.numerical_strategy vals badVals) false)] := by
  have hnum : vals.all isNumberCheck := by
    rw [List.all_eq_true] at hbool ⊢
    intro v hv
    have hb := hbool v hv
    cases v <;> simp_all [isBoolVal, isNumberCheck]
  refine ⟨hnum, ?_⟩
  rw [ErrorAnalyzer.entriesFor_eq a f vals hnd hmem hig]
  unfold ErrorAnalyzer.goodFieldEntry
  rw [hshared]
  dsimp only
  rw [if_pos hnum]
  rfl

/-- Analyzer for the C9 witness: shared all-boolean field `"flag"`, with
distinct constant p-values for the two strategy families so the
dispatched one is visible in the entry. -/
def anaBools : ErrorAnalyzer :=
  { good_data := ⟨[("flag", [.bool true, .bool false])]⟩
    bad_data := ⟨[("flag", [.bool false])]⟩
    fields_to_ignore := []
    numerical_strategy := fun _ _ => 1 / 4
    categorical_probability := fun _ _ => 3 / 4 }

/-- Witness for C9 on `anaBools`. -/
theorem bool_column_classified_numeric_witness :
    ([PyVal.bool true, PyVal.bool false].all isNumberCheck = true) ∧
    anaBools.entriesFor "flag" =
      [("flag", ProbEntry.tested (1 / 4) false)] :=
  bool_column_classified_numeric anaBools "flag"
    [.bool true, .bool false] [.bool false]
    (by decide) (by decide) rfl (by decide) (by decide)

/-- C10: for a non-ignored reference-only field, the probability-map
entry is the 4-element `MISSING_BAD_DATA` tuple, whose unpacking into
the 3-element `(p_value, _, _)` pattern raises a `ValueError`:
`calculate_effect_size` returns neither an effect size nor the `0.0`
sentinel, but fails. -/
theorem effect_size_missing_field_raises (a : ErrorAnalyzer) (f : String)
    (vals : List PyVal)
    (hnd : a.good_data.columns.Nodup)
    (hmem : (f, vals) ∈ a.good_data.cols)
    (habsent : a.bad_data.get f = none)
    (hig : f ∉ a.fields_to_ignore) :
    a.calculate_effect_size f = none := by
  unfold ErrorAnalyzer.calculate_effect_size
  rw [if_neg hig, ErrorAnalyzer.find?_eq_head_entriesFor,
    ErrorAnalyzer.entriesFor_eq a f vals hnd hmem hig]
  unfold ErrorAnalyzer.goodFieldEntry
  rw [habsent]
  rfl

/-- Analyzer for the C10 witness: `"legacy"` exists only in the
reference data. -/
def anaMissingField : ErrorAnalyzer :=
  { good_data := ⟨[("size", [.int 1]), ("legacy", [.int 2, .int 3])]⟩
    bad_data := ⟨[("size", [.int 4])]⟩
    fields_to_ignore := []
    numerical_strategy := fun _ _ => 1 / 2
    categorical_probability := fun _ _ => 1 / 2 }

/-- Witness for C10 on `anaMissingField`. -/
theorem effect_size_missing_field_raises_witness :
    anaMissingField.calculate_effect_size "legacy" = none :=
  effect_size_missing_field_raises anaMissingField "legacy" [.int 2, .int 3]
    (by decide) (by decide) rfl (by decide)

/-- The rows of a returned Result Table that carry a given field name
are exactly the rows of the dict entries keyed by that name. -/
theorem filter_run_rows (a : ErrorAnalyzer) (t : List ResultRow) (f : String)
    (hrun : a.run = some t) :
    t.filter (fun r => r.field == f) =
      (a.entriesFor f).filterMap (ErrorAnalyzer.rowOf a.fields_to_ignore) := by
  obtain ⟨ht, -⟩ :=
    ErrorAnalyzer.runLoop_eq_some a.fields_to_ignore a.calculate_probabilities t hrun
  rw [ht, List.filter_filterMap, ErrorAnalyzer.entriesFor, List.filterMap_filterMap]
  apply List.filterMap_congr
  intro fe _
  rcases hr : ErrorAnalyzer.rowOf a.fields_to_ignore fe with _ | r
  · by_cases he : fe.1 = f <;> simp [he, hr]
  · obtain ⟨-, hfield⟩ := rowOf_some_inv a.fields_to_ignore fe r hr
    by_cases he : fe.1 = f
    · simp [he, hr, Option.filter, hfield]
    · have : r.field ≠ f := by rw [hfield]; exact he
      simp [he, hr, Option.filter, this]

/-- C4: a shared, non-ignored field with an all-numeric or all-string
reference column contributes exactly one row to a returned Result Table
— the row scored from the matching strategy's p-value — and a
mixed-type (unclassifiable) column contributes no row; under the
strategy contract that p-values lie in `[0, 1]`, that row's probability
lies in `[0, 100]`. -/
theorem shared_field_result_rows (a : ErrorAnalyzer) (t : List ResultRow)
    (f : String) (vals badVals : List PyVal)
    (hnd : a.good_data.columns.Nodup)
    (hmem : (f, vals) ∈ a.good_data.cols)
    (hshared : a.bad_data.get f = some badVals)
    (hig : f ∉ a.fields_to_ignore)
    (hnum : ∀ g b, 0 ≤ a.numerical_strategy g b ∧ a.numerical_strategy g b ≤ 1)
    (hcat : ∀ g b, 0 ≤ a.categorical_probability g b ∧
      a.categorical_probability g b ≤ 1)
    (hrun : a.run = some t) :
    (t.filter (fun r => r.field == f) =
      (if vals.all isNumberCheck then
        [({ field := f,
            probability :=
              ErrorAnalyzer.calculate_probability
                (a.numerical_strategy vals badVals) false,
            extra_status := false, details := none } : ResultRow)]
       else if vals.all isStringCheck then
        [({ field := f,
            probability :=
              ErrorAnalyzer.calculate_probability
                (a.categorical_probability vals badVals) false,
            extra_status := false, details := none } : ResultRow)]
       else [])) ∧
    (0 ≤ ErrorAnalyzer.calculate_probability
        (a.numerical_strategy vals badVals) false ∧
      ErrorAnalyzer.calculate_probability
        (a.numerical_strategy vals badVals) false ≤ 100) ∧
    (0 ≤ ErrorAnalyzer.calculate_probability
        (a.categorical_probability vals badVals) false ∧
      ErrorAnalyzer.calculate_probability
        (a.categorical_probability vals badVals) false ≤ 100) := by
  refine ⟨?_, ?_, ?_⟩
  · rw [filter_run_rows a t f hrun,
      ErrorAnalyzer.entriesFor_eq a f vals hnd hmem hig]
    unfold ErrorAnalyzer.goodFieldEntry
    rw [hshared]
    dsimp only
    by_cases h1 : vals.all isNumberCheck
    · rw [if_pos h1, if_pos h1]
      simp [ErrorAnalyzer.rowOf, ProbEntry.unpack3, hig]
    · rw [if_neg h1, if_neg h1]
      by_cases h2 : vals.all isStringCheck
      · rw [if_pos h2, if_pos h2]
        simp [ErrorAnalyzer.rowOf, ProbEntry.unpack3, hig]
      · rw [if_neg h2, if_neg h2]
        rfl
  · exact ErrorAnalyzer.calculate_probability_nondrift_bounds _
      (hnum vals badVals).1 (hnum vals badVals).2
  · exact ErrorAnalyzer.calculate_probability_nondrift_bounds _
      (hcat vals badVals).1 (hcat vals badVals).2

/-- Analyzer for the C4 witness: one shared numeric field. -/
def anaShared : ErrorAnalyzer :=
  { good_data := ⟨[("x", [.int 1, .int 2])]⟩
    bad_data := ⟨[("x", [.int 3])]⟩
    fields_to_ignore := []
    numerical_strategy := fun _ _ => 1 / 100
    categorical_probability := fun _ _ => 1 / 2 }

/-- Witness for C4 on `anaShared` at field `"x"`. -/
theorem shared_field_result_rows_witness :
    (List.filter (fun r => r.field == "x")
        [({ field := "x",
            probability := ErrorAnalyzer.calculate_probability (1 / 100) false,
            extra_status := false, details := none } : ResultRow)] =
      (if [PyVal.int 1, PyVal.int 2].all isNumberCheck then
        [({ field := "x",
            probability := ErrorAnalyzer.calculate_probability (1 / 100) false,
            extra_status := false, details := none } : ResultRow)]
       else if [PyVal.int 1, PyVal.int 2].all isStringCheck then
        [({ field := "x",
            probability := ErrorAnalyzer.calculate_probability (1 / 2) false,
            extra_status := false, details := none } : ResultRow)]
       else [])) ∧
    (0 ≤ ErrorAnalyzer.calculate_probability (1 / 100) false ∧
      ErrorAnalyzer.calculate_probability (1 / 100) false ≤ 100) ∧
    (0 ≤ ErrorAnalyzer.calculate_probability (1 / 2) false ∧
      ErrorAnalyzer.calculate_probability (1 / 2) false ≤ 100) :=
  shared_field_result_rows anaShared
    [{ field := "x",
       probability := ErrorAnalyzer.calculate_probability (1 / 100) false,
       extra_status := false, details := none }]
    "x" [.int 1, .int 2] [.int 3]
    (by decide) (by decide) rfl (by decide)
    (fun _ _ => by norm_num [anaShared]) (fun _ _ => by norm_num [anaShared]) rfl

/-- C8: the field names of a returned Result Table are exactly the
reference columns in native order — ignored and unclassifiable fields
skipped — followed by the non-ignored candidate-only columns in the
candidate's native order.  (On a successful run the candidate-only part
is empty, since a drift entry would have aborted `run`; the shape still
states the full contract.) -/
theorem result_table_row_order (a : ErrorAnalyzer) (t : List ResultRow)
    (hrun : a.run = some t) :
    t.map (fun r => r.field) =
      (a.good_data.cols.filterMap (fun c =>
        if c.1 ∈ a.fields_to_ignore then none
        else if c.1 ∈ a.bad_data.columns then
          (if c.2.all isNumberCheck ∨ c.2.all isStringCheck then some c.1
           else none)
        else some c.1))
      ++ (a.bad_data.cols.filterMap (fun c =>
        if c.1 ∈ a.good_data.columns then none
        else if c.1 ∈ a.fields_to_ignore then none
        else some c.1)) := by
  obtain ⟨ht, htested⟩ :=
    ErrorAnalyzer.runLoop_eq_some a.fields_to_ignore a.calculate_probabilities t hrun
  rw [ht, List.map_filterMap]
  conv_lhs => rw [ErrorAnalyzer.calculate_probabilities]
  rw [List.filterMap_append, List.filterMap_filterMap, List.filterMap_filterMap]
  congr 1
  · -- reference part
    apply List.filterMap_congr
    intro c hc
    by_cases hig : c.1 ∈ a.fields_to_ignore
    · simp [hig]
    · rcases hbg : a.bad_data.get c.1 with _ | bv
      · -- missing in candidate: its drift entry contradicts success
        have hmemprob : (c.1, MISSING_BAD_DATA) ∈ a.calculate_probabilities := by
          unfold ErrorAnalyzer.calculate_probabilities
          exact List.mem_append_left _ (List.mem_filterMap.mpr
            ⟨c, hc, by simp [hig, ErrorAnalyzer.goodFieldEntry, hbg]⟩)
        rcases htested _ hmemprob with ⟨p, flag, habs⟩
        exact absurd habs (by simp [MISSING_BAD_DATA])
      · have hcols : c.1 ∈ a.bad_data.columns :=
          DataFrame.mem_columns_of_get_eq_some a.bad_data c.1 bv hbg
        by_cases h1 : c.2.all isNumberCheck
        · simp [hig, hbg, hcols, h1, ErrorAnalyzer.goodFieldEntry,
            ErrorAnalyzer.rowOf, ProbEntry.unpack3]
        · by_cases h2 : c.2.all isStringCheck
          · simp [hig, hbg, hcols, h1, h2, ErrorAnalyzer.goodFieldEntry,
              ErrorAnalyzer.rowOf, ProbEntry.unpack3]
          · simp [hig, hbg, hcols, h1, h2, ErrorAnalyzer.goodFieldEntry]
  · -- candidate-only part
    apply List.filterMap_congr
    intro c hc
    by_cases h1 : c.1 ∈ a.good_data.columns
    · simp [h1]
    · by_cases h2 : c.1 ∈ a.fields_to_ignore
      · simp [h1, h2]
      · have hmemprob : (c.1, ADDITIONAL_BAD_DATA) ∈ a.calculate_probabilities := by
          unfold ErrorAnalyzer.calculate_probabilities
          exact List.mem_append_right _ (List.mem_filterMap.mpr
            ⟨c, hc, by simp [h1, h2]⟩)
        rcases htested _ hmemprob with ⟨p, flag, habs⟩
        exact absurd habs (by simp [ADDITIONAL_BAD_DATA])

/-- Analyzer for the C8 witness: shared numeric `"x"`, shared string
`"s"`, mixed (unclassifiable) `"m"`, ignored shared `"d"` and ignored
candidate-only `"e"`. -/
def anaOrdered : ErrorAnalyzer :=
  { good_data := ⟨[("x", [.int 1]), ("s", [.str "a"]),
                   ("m", [.int 1, .str "b"]), ("d", [.int 5])]⟩
    bad_data := ⟨[("x", [.int 2]), ("s", [.str "c"]), ("m", [.str "q"]),
                  ("d", [.int 7]), ("e", [.int 9])]⟩
    fields_to_ignore := ["d", "e"]
    numerical_strategy := fun _ _ => 1 / 2
    categorical_probability := fun _ _ => 1 / 2 }

/-- Witness for C8 on `anaOrdered`: `run` returns the rows for `"x"`
then `"s"`, matching the specified iteration order. -/
theorem result_table_row_order_witness :
    ([({ field := "x",
         probability := ErrorAnalyzer.calculate_probability (1 / 2) false,
         extra_status := false, details := none } : ResultRow),
      ({ field := "s",
         probability := ErrorAnalyzer.calculate_probability (1 / 2) false,
         extra_status := false, details := none } : ResultRow)]).map
        (fun r => r.field) =
      (anaOrdered.good_data.cols.filterMap (fun c =>
        if c.1 ∈ anaOrdered.fields_to_ignore then none
        else if c.1 ∈ anaOrdered.bad_data.columns then
          (if c.2.all isNumberCheck ∨ c.2.all isStringCheck then some c.1
           else none)
        else some c.1))
      ++ (anaOrdered.bad_data.cols.filterMap (fun c =>
        if c.1 ∈ anaOrdered.good_data.columns then none
        else if c.1 ∈ anaOrdered.fields_to_ignore then none
        else some c.1)) :=
  result_table_row_order anaOrdered
    [{ field := "x",
       probability := ErrorAnalyzer.calculate_probability (1 / 2) false,
       extra_status := false, details := none },
     { field := "s",
       probability := ErrorAnalyzer.calculate_probability (1 / 2) false,
       extra_status := false, details := none }]
    rfl
